import Mathlib

/-
Shallow embedding of the feedback email scheduler of the studykey third
server (files src/services/emailScheduler.js, src/models/FeedbackTracker.js,
src/api/cron/process-emails.js and the admin router).

Timestamps are modelled as integers on an abstract timeline; the calendar
function addDays of the model is rendered as integer addition of a day
count, which preserves every ordering fact the scheduler relies on.
External effects are explicit parameters: the template collection of the
database is a function from day number to the active override (findOne on
day and isActive), the template files on disk are a function from day
number to optional file content, and the mail transport outcome of one
sendMail call is a value of MailOutcome supplied by the caller.
Persistence (tracker.save) is modelled by returning the updated tracker.
-/

/-- Lifecycle status of a feedback tracker (enum of the schema). -/
inductive TrackerStatus where
  | pending
  | reviewed
  | unreviewed
  | cancelled
deriving DecidableEq, Repr

/-- One per stage record of emailSchedule: scheduledDate, sent, sentAt, error. -/
structure StageRecord where
  scheduledDate : Int
  sent : Bool
  sentAt : Option Int
  error : Option String
deriving DecidableEq, Repr

/-- The four stage records day3, day7, day14, day30. -/
structure EmailSchedule where
  day3 : StageRecord
  day7 : StageRecord
  day14 : StageRecord
  day30 : StageRecord
deriving DecidableEq, Repr

/-- The four stage keys of the schedule. -/
inductive Day where
  | d3
  | d7
  | d14
  | d30
deriving DecidableEq, Repr

/-- Numeric day value of a stage key. -/
def Day.toNat : Day → Nat
  | .d3 => 3
  | .d7 => 7
  | .d14 => 14
  | .d30 => 30

/-- Read the stage record of a given day key. -/
def getStage (es : EmailSchedule) : Day → StageRecord
  | .d3 => es.day3
  | .d7 => es.day7
  | .d14 => es.day14
  | .d30 => es.day30

/-- Replace the stage record of a given day key. -/
def setStage (es : EmailSchedule) (d : Day) (s : StageRecord) : EmailSchedule :=
  match d with
  | .d3 => { es with day3 := s }
  | .d7 => { es with day7 := s }
  | .d14 => { es with day14 := s }
  | .d30 => { es with day30 := s }

/-- A FeedbackTracker document. -/
structure Tracker where
  orderId : String
  customerEmail : String
  customerName : String
  phoneNumber : Option String
  asin : Option String
  productName : Option String
  productUrl : Option String
  reviewUrl : Option String
  submissionDate : Int
  emailSchedule : EmailSchedule
  status : TrackerStatus
  reviewedAt : Option Int
  reviewedOnDay : Option Nat
  isActive : Bool
  notes : Option String
deriving DecidableEq, Repr

/-- Update one stage record of a tracker in place (mongoose field mutation
followed by save). -/
def updStage (t : Tracker) (d : Day) (f : StageRecord → StageRecord) : Tracker :=
  { t with emailSchedule := setStage t.emailSchedule d (f (getStage t.emailSchedule d)) }

/-- createScheduledDates of FeedbackTracker: the four due dates are the
submission date plus the fixed day offsets, every sent flag false. -/
def createScheduledDates (submissionDate : Int) : EmailSchedule :=
  { day3 := { scheduledDate := submissionDate + 3, sent := false, sentAt := none, error := none }
    day7 := { scheduledDate := submissionDate + 7, sent := false, sentAt := none, error := none }
    day14 := { scheduledDate := submissionDate + 14, sent := false, sentAt := none, error := none }
    day30 := { scheduledDate := submissionDate + 30, sent := false, sentAt := none, error := none } }

/-- Tracker creation as performed in index.js: explicit status pending,
isActive true, schedule from createScheduledDates. -/
def mkTracker (orderId customerEmail customerName : String)
    (phoneNumber asin productName productUrl reviewUrl : Option String)
    (submissionDate : Int) : Tracker :=
  { orderId := orderId
    customerEmail := customerEmail
    customerName := customerName
    phoneNumber := phoneNumber
    asin := asin
    productName := productName
    productUrl := productUrl
    reviewUrl := reviewUrl
    submissionDate := submissionDate
    emailSchedule := createScheduledDates submissionDate
    status := .pending
    reviewedAt := none
    reviewedOnDay := none
    isActive := true
    notes := none }

/-- markAsReviewed of the schema: status reviewed, reviewedAt now,
reviewedOnDay, isActive false, then save. -/
def markAsReviewed (t : Tracker) (dayNumber : Nat) (now : Int) : Tracker :=
  { t with status := .reviewed, reviewedAt := some now,
           reviewedOnDay := some dayNumber, isActive := false }

/-- markAsUnreviewed of the schema: status unreviewed, isActive false. -/
def markAsUnreviewed (t : Tracker) : Tracker :=
  { t with status := .unreviewed, isActive := false }

/-- cancelEmails of the schema: status cancelled, isActive false, notes kept
unless a truthy notes argument is given. -/
def cancelEmails (t : Tracker) (notes : Option String) : Tracker :=
  { t with status := .cancelled, isActive := false,
           notes := match notes with
                    | some n => if n = "" then t.notes else some n
                    | none => t.notes }

/-- The admin reactivate route body on a found tracker: isActive true,
status pending, save. No check of the previous status is performed. -/
def reactivate (t : Tracker) : Tracker :=
  { t with isActive := true, status := .pending }

/-- The reactivate route handler: 404 when the tracker is not found,
otherwise apply the mutation and answer 200 with success true. The
returned triple is (saved tracker, http status, success flag). -/
def reactivateRoute (found : Option Tracker) : Option Tracker × Nat × Bool :=
  match found with
  | none => (none, 404, false)
  | some t => (some (reactivate t), 200, true)

/-- An active EmailTemplate override document (subject and htmlContent). -/
structure TemplateOverride where
  subject : String
  htmlContent : String
deriving DecidableEq, Repr

/-- The template collection: the active override for a day number, if any. -/
def TemplateDb : Type := Nat → Option TemplateOverride

/-- The template files on disk, read by day number. -/
def TemplateFiles : Type := Nat → Option String

/-- Placeholder substitution applied to a template string: every occurrence
of each placeholder is replaced, empty values fall back to the generic
product phrase, the generic Amazon review URL and the Amazon home URL. -/
def substitutePlaceholders (html customerName productName reviewUrl productUrl : String) : String :=
  ((((html.replace "\x7b\x7bcustomerName\x7d\x7d" customerName).replace
      "\x7b\x7bproductName\x7d\x7d" (if productName = "" then "your product" else productName)).replace
      "\x7b\x7breviewUrl\x7d\x7d" (if reviewUrl = "" then "https://www.amazon.com/review/create-review" else reviewUrl)).replace
      "\x7b\x7bproductUrl\x7d\x7d" (if productUrl = "" then "https://www.amazon.com" else productUrl))

/-- getDefaultEmailContent of emailScheduler.js: the hard coded fallback
body, with the default product phrase and default links for empty values. -/
def getDefaultEmailContent (dayNumber : Nat) (customerName productName reviewUrl productUrl : String) : String :=
  let productDisplay := if productName = "" then "your product" else productName
  let finalReviewUrl := if reviewUrl = "" then "https://www.amazon.com/review/create-review" else reviewUrl
  let finalProductUrl := if productUrl = "" then "https://www.amazon.com" else productUrl
  "\n    <div style=\"font-family: Arial, sans-serif; max-width: 600px; margin: 0 auto; padding: 20px;\">\n      <h2>Hi "
    ++ customerName ++ "! 👋</h2>\n      \n      <p>It\x27s been " ++ toString dayNumber
    ++ " days since you claimed your Study Key reward. We hope you\x27re enjoying <strong>"
    ++ productDisplay
    ++ "</strong>!</p>\n      \n      <p><strong>Would you mind sharing your experience?</strong></p>\n      \n      <p>Your honest Amazon review helps us improve and helps other customers make informed decisions. It only takes a minute!</p>\n      \n      <div style=\"text-align: center; margin: 30px 0;\">\n        <a href=\""
    ++ finalReviewUrl
    ++ "\" \n           style=\"background-color: #FF9900; color: white; padding: 15px 30px; text-decoration: none; border-radius: 5px; font-weight: bold; display: inline-block;\">\n          Write Your Review\n        </a>\n      </div>\n      \n      "
    ++ (if productUrl = "" then "" else
        "<p style=\"text-align: center; margin: 20px 0;\">\n        <a href=\"" ++ finalProductUrl
          ++ "\" style=\"color: #0066c0; text-decoration: none;\">View " ++ productDisplay
          ++ " on Amazon</a>\n      </p>")
    ++ "\n      \n      <p>Thank you for being part of our community!</p>\n      \n      <p style=\"color: #666; font-size: 12px; margin-top: 30px;\">\n        You\x27re receiving this because you claimed a Study Key reward. If you\x27ve already left a review, thank you! You can ignore this email.\n      </p>\n    </div>\n  "

/-- loadEmailTemplate of emailScheduler.js: database override first, then
the file template, then the hard coded fallback; every branch substitutes
the placeholders with the same defaults. -/
def loadEmailTemplate (tdb : TemplateDb) (files : TemplateFiles) (dayNumber : Nat)
    (customerName productName reviewUrl productUrl : String) : String :=
  match tdb dayNumber with
  | some tpl =>
      substitutePlaceholders tpl.htmlContent customerName productName reviewUrl productUrl
  | none =>
      match files dayNumber with
      | some html => substitutePlaceholders html customerName productName reviewUrl productUrl
      | none => getDefaultEmailContent dayNumber customerName productName reviewUrl productUrl

/-- getEmailSubject of emailScheduler.js: subject of the active override
with the customer name substituted, else the fixed default subject of the
day, else the generic subject. -/
def getEmailSubject (tdb : TemplateDb) (dayNumber : Nat) (customerName : String) : String :=
  match tdb dayNumber with
  | some tpl => tpl.subject.replace "\x7b\x7bcustomerName\x7d\x7d" customerName
  | none =>
      if dayNumber = 3 then customerName ++ ", how\x27s your Study Key product? 🎯"
      else if dayNumber = 7 then "Quick favor - Share your Study Key experience? 📝"
      else if dayNumber = 14 then customerName ++ ", your feedback matters to us! 💭"
      else if dayNumber = 30 then "Final reminder: Share your Study Key review 🌟"
      else "Study Key - Review Request"

/-- Outbound mail credentials of the process environment. -/
structure Env where
  gmailUser : Option String
  gmailPass : Option String
deriving DecidableEq, Repr

/-- Outcome of one transporter.sendMail call: a thrown error (message, the
empty string standing for a falsy message) or a response with optional
accepted and rejected address lists and a message id. -/
inductive MailOutcome where
  | threw (msg : String)
  | response (accepted : Option (List String)) (rejected : Option (List String)) (messageId : String)
deriving DecidableEq, Repr

/-- Return value of sendFeedbackEmail. -/
structure SendResult where
  success : Bool
  error : Option String
  emailId : Option String
deriving DecidableEq, Repr

/-- sendFeedbackEmail of emailScheduler.js. The boolean of the result
triple records whether the mail transport was invoked. The credential
checks update only the error field of the stage record; the rejection and
exception branches set sent to false and store the error; the success
branch sets sent, sentAt and clears the error. -/
def sendFeedbackEmail (env : Env) (tdb : TemplateDb) (files : TemplateFiles) (now : Int)
    (oc : MailOutcome) (tracker : Tracker) (day : Day) : Tracker × SendResult × Bool :=
  match env.gmailUser with
  | none =>
      let e := "GMAIL_USER not configured. Cannot send email."
      (updStage tracker day (fun s => { s with error := some e }),
       { success := false, error := some e, emailId := none }, false)
  | some _ =>
    match env.gmailPass with
    | none =>
        let e := "GMAIL_PASS not configured. Cannot send email."
        (updStage tracker day (fun s => { s with error := some e }),
         { success := false, error := some e, emailId := none }, false)
    | some _ =>
      let _emailHtml := loadEmailTemplate tdb files day.toNat tracker.customerName
        (tracker.productName.getD "") (tracker.reviewUrl.getD "") (tracker.productUrl.getD "")
      let _subject := getEmailSubject tdb day.toNat tracker.customerName
      match oc with
      | .threw msg =>
          let e := if msg = "" then "Unknown error" else msg
          (updStage tracker day (fun s => { s with error := some e, sent := false }),
           { success := false, error := some e, emailId := none }, true)
      | .response accepted rejected messageId =>
          match accepted with
          | none =>
              let e := match rejected with
                       | some r => "Email rejected: " ++ String.intercalate ", " r
                       | none => "Email failed to send"
              (updStage tracker day (fun s => { s with error := some e, sent := false }),
               { success := false, error := some e, emailId := none }, true)
          | some [] =>
              let e := match rejected with
                       | some r => "Email rejected: " ++ String.intercalate ", " r
                       | none => "Email failed to send"
              (updStage tracker day (fun s => { s with error := some e, sent := false }),
               { success := false, error := some e, emailId := none }, true)
          | some (_ :: _) =>
              (updStage tracker day (fun s => { s with sent := true, sentAt := some now, error := none }),
               { success := true, error := none, emailId := some messageId }, true)

/-- Per run cap of the rate limit configuration. -/
def maxEmailsPerRun : Nat := 30

/-- Due test of one stage record against the half open interval of today:
sent false and today less or equal scheduledDate strictly before tomorrow. -/
def stageDue (today tomorrow : Int) (s : StageRecord) : Bool :=
  !s.sent && decide (today ≤ s.scheduledDate) && decide (s.scheduledDate < tomorrow)

/-- The due set query of processPendingEmails: isActive true, status
pending, some stage due today, capped at the per run maximum. -/
def findDueTrackers (db : List Tracker) (today tomorrow : Int) : List Tracker :=
  (db.filter (fun t =>
    t.isActive && decide (t.status = TrackerStatus.pending) &&
      (stageDue today tomorrow t.emailSchedule.day3 ||
       stageDue today tomorrow t.emailSchedule.day7 ||
       stageDue today tomorrow t.emailSchedule.day14 ||
       stageDue today tomorrow t.emailSchedule.day30))).take maxEmailsPerRun

/-- The stage evaluation order of the per tracker loop: later days first. -/
def daysToCheck : List Day := [.d30, .d14, .d7, .d3]

/-- Priority position of a day key inside daysToCheck. -/
def dayIdx : Day → Nat
  | .d30 => 0
  | .d14 => 1
  | .d7 => 2
  | .d3 => 3

/-- The first due and unsent stage in the order of daysToCheck. -/
def firstDueDay (today tomorrow : Int) (es : EmailSchedule) : Option Day :=
  daysToCheck.find? (fun d => stageDue today tomorrow (getStage es d))

/-- The inner loop of processPendingEmails for one tracker: the first due
stage in priority order is attempted, then the loop breaks; when no stage
is due nothing happens. -/
def processTrackerSend (env : Env) (tdb : TemplateDb) (files : TemplateFiles) (now : Int)
    (oc : Day → MailOutcome) (today tomorrow : Int) (t : Tracker) :
    Tracker × Option (Day × SendResult) :=
  match firstDueDay today tomorrow t.emailSchedule with
  | none => (t, none)
  | some d =>
      let r := sendFeedbackEmail env tdb files now (oc d) t d
      (r.1, some (d, r.2.1))

/-- The day 30 completion check that follows the inner loop: a tracker
whose day 30 stage is sent while its status is still pending is marked as
unreviewed. -/
def promoteIfDone (t : Tracker) : Tracker :=
  if t.emailSchedule.day30.sent = true ∧ t.status = TrackerStatus.pending then
    markAsUnreviewed t
  else t

/-- Full processing of one tracker inside a run. -/
def processTrackerFull (env : Env) (tdb : TemplateDb) (files : TemplateFiles) (now : Int)
    (oc : Day → MailOutcome) (today tomorrow : Int) (t : Tracker) :
    Tracker × Option (Day × SendResult) :=
  let r := processTrackerSend env tdb files now oc today tomorrow t
  (promoteIfDone r.1, r.2)

/-- The tracker loop of a run over the due set. -/
def runBatch (env : Env) (tdb : TemplateDb) (files : TemplateFiles) (now : Int)
    (oc : Tracker → Day → MailOutcome) (today tomorrow : Int) (trackers : List Tracker) :
    List (Tracker × Option (Day × SendResult)) :=
  trackers.map (fun t => processTrackerFull env tdb files now (oc t) today tomorrow t)

/-- One entry of the per item error list of a run summary. -/
structure ErrorEntry where
  orderId : String
  day : Nat
  error : Option String
deriving DecidableEq, Repr

/-- The aggregate summary of a run. -/
structure RunResults where
  processed : Nat
  sent : Nat
  failed : Nat
  skipped : Nat
  errors : List ErrorEntry
deriving DecidableEq, Repr

/-- The initial counters of a run. -/
def initResults : RunResults :=
  { processed := 0, sent := 0, failed := 0, skipped := 0, errors := [] }

/-- Counter update for one processed item. -/
def tallyStep (acc : RunResults) (item : Tracker × Option (Day × SendResult)) : RunResults :=
  match item.2 with
  | none => acc
  | some (d, r) =>
      if r.success then
        { acc with processed := acc.processed + 1, sent := acc.sent + 1 }
      else
        { acc with processed := acc.processed + 1, failed := acc.failed + 1,
                   errors := acc.errors ++ [{ orderId := item.1.orderId, day := d.toNat, error := r.error }] }

/-- Aggregation of the run summary over the processed items. -/
def aggregate (out : List (Tracker × Option (Day × SendResult))) : RunResults :=
  out.foldl tallyStep initResults

/-- processPendingEmails: a failing due set query is fatal and propagates;
otherwise every tracker of the due set is processed and a summary is
returned. The result carries the updated trackers with their attempt
records together with the summary. -/
def processPendingEmails (env : Env) (tdb : TemplateDb) (files : TemplateFiles) (now : Int)
    (oc : Tracker → Day → MailOutcome) (today tomorrow : Int)
    (fetch : Except String (List Tracker)) :
    Except String (List (Tracker × Option (Day × SendResult)) × RunResults) :=
  match fetch with
  | .error e => .error e
  | .ok trackers =>
      let out := runBatch env tdb files now oc today tomorrow trackers
      .ok (out, aggregate out)

/-- The JSON answer of the cron trigger handler. -/
structure CronResponse where
  status : Nat
  success : Bool
  message : Option String
  results : Option RunResults
  error : Option String
  timestamp : Option Int
deriving DecidableEq, Repr

/-- The cron handler of api/cron/process-emails.js: unauthorized requests
get 401 and no run happens; a successful run answers 200 with the summary
and a timestamp; a thrown run error answers 500 with the error message and
a timestamp and no summary. -/
def cronHandler (authOk : Bool) (run : Except String RunResults) (ts : Int) : CronResponse :=
  if authOk = false then
    { status := 401, success := false, message := none, results := none,
      error := some "Unauthorized", timestamp := none }
  else
    match run with
    | .ok results =>
        { status := 200, success := true, message := some "Email processing completed",
          results := some results, error := none, timestamp := some ts }
    | .error e =>
        { status := 500, success := false, message := none, results := none,
          error := some e, timestamp := some ts }

/-- Terminal status predicate. -/
def isTerminal (st : TrackerStatus) : Prop :=
  st = .reviewed ∨ st = .unreviewed ∨ st = .cancelled

/-- The activity invariant: isActive false exactly on terminal statuses. -/
def statusActiveInv (t : Tracker) : Prop :=
  t.isActive = false ↔ isTerminal t.status

/-- Containment test of one character list inside another, used to state
that a marker string occurs in generated email text. -/
def hasSubSeq (needle : List Char) : List Char → Bool
  | [] => needle.isEmpty
  | c :: t => needle.isPrefixOf (c :: t) || hasSubSeq needle t

/-- Substring test on strings. -/
def strContainsSub (hay needle : String) : Bool :=
  hasSubSeq needle.toList hay.toList

/-- Sample values used by concrete witnesses. -/
def tdbEmpty : TemplateDb := fun _ => none

/-- Sample file system with no template files. -/
def filesEmpty : TemplateFiles := fun _ => none

/-- Sample tracker submitted three days ago: its day 3 stage is due in the
interval of day zero. -/
def tDue : Tracker := mkTracker "o1" "ana@example.com" "Ana" none none none none none (-3)

/-- Sample tracker in the reviewed state. -/
def tReviewedSample : Tracker :=
  markAsReviewed (mkTracker "o2" "bob@example.com" "Bob" none none none none none 0) 7 5

/-- Reading an updated stage at the written day yields the written record. -/
theorem getStage_updStage_same (t : Tracker) (d : Day) (f : StageRecord → StageRecord) :
    getStage (updStage t d f).emailSchedule d = f (getStage t.emailSchedule d) := by
  cases d <;> rfl

/-- Reading an updated stage at another day is unchanged. -/
theorem getStage_updStage_ne (t : Tracker) (d d' : Day) (f : StageRecord → StageRecord)
    (h : d' ≠ d) : getStage (updStage t d f).emailSchedule d' = getStage t.emailSchedule d' := by
  cases d <;> cases d' <;> first | exact absurd rfl h | rfl

/-- Claim C4: the invariant that isActive is false exactly on terminal
statuses holds after tracker creation, markAsReviewed, markAsUnreviewed,
cancelEmails and the admin reactivate mutation, and the due set selector
never returns a tracker whose status is terminal. -/
theorem claim4_isActive_iff_terminal :
    (∀ oid em nm ph an pn pu ru sd,
        statusActiveInv (mkTracker oid em nm ph an pn pu ru sd)) ∧
    (∀ t d now, statusActiveInv (markAsReviewed t d now)) ∧
    (∀ t, statusActiveInv (markAsUnreviewed t)) ∧
    (∀ t n, statusActiveInv (cancelEmails t n)) ∧
    (∀ t, statusActiveInv (reactivate t)) ∧
    (∀ db today tomorrow t,
        t ∈ findDueTrackers db today tomorrow → ¬ isTerminal t.status) := by
  refine ⟨?_, ?_, ?_, ?_, ?_, ?_⟩
  · intro oid em nm ph an pn pu ru sd
    simp [statusActiveInv, isTerminal, mkTracker]
  · intro t d now
    simp [statusActiveInv, isTerminal, markAsReviewed]
  · intro t
    simp [statusActiveInv, isTerminal, markAsUnreviewed]
  · intro t n
    simp [statusActiveInv, isTerminal, cancelEmails]
  · intro t
    simp [statusActiveInv, isTerminal, reactivate]
  · intro db today tomorrow t hmem
    have hf := (List.mem_filter.mp (List.mem_of_mem_take hmem)).2
    simp only [Bool.and_eq_true, decide_eq_true_eq] at hf
    intro hterm
    rcases hterm with h | h | h <;> rw [hf.1.2] at h <;> exact TrackerStatus.noConfusion h

/-- Witness for claim C4 at a concrete tracker and a concrete due set. -/
theorem claim4_isActive_iff_terminal_w :
    statusActiveInv (markAsUnreviewed tDue) ∧ ¬ isTerminal tDue.status := by
  have h := claim4_isActive_iff_terminal
  exact ⟨h.2.2.1 tDue, h.2.2.2.2.2 [tDue] 0 1 tDue (by decide)⟩

/-- Claim C5: the due set selector returns at most the per run cap of
trackers, every returned tracker is active and pending with some stage
unsent and due inside the half open interval of today, and an inactive
tracker is never returned. -/
theorem claim5_selector :
    ∀ db today tomorrow,
      (findDueTrackers db today tomorrow).length ≤ maxEmailsPerRun ∧
      (∀ t, t ∈ findDueTrackers db today tomorrow →
        t.isActive = true ∧ t.status = TrackerStatus.pending ∧
          ∃ d : Day, stageDue today tomorrow (getStage t.emailSchedule d) = true) ∧
      (∀ t, t.isActive = false → t ∉ findDueTrackers db today tomorrow) := by
  intro db today tomorrow
  refine ⟨List.length_take_le _ _, ?_, ?_⟩
  · intro t hmem
    have hf := (List.mem_filter.mp (List.mem_of_mem_take hmem)).2
    simp only [Bool.and_eq_true, Bool.or_eq_true, decide_eq_true_eq] at hf
    refine ⟨hf.1.1, hf.1.2, ?_⟩
    rcases hf.2 with ((h | h) | h) | h
    · exact ⟨.d3, h⟩
    · exact ⟨.d7, h⟩
    · exact ⟨.d14, h⟩
    · exact ⟨.d30, h⟩
  · intro t hinact hmem
    have hf := (List.mem_filter.mp (List.mem_of_mem_take hmem)).2
    simp only [Bool.and_eq_true, decide_eq_true_eq] at hf
    rw [hinact] at hf
    exact Bool.noConfusion hf.1.1

/-- Witness for claim C5 at a concrete due tracker. -/
theorem claim5_selector_w :
    (findDueTrackers [tDue] 0 1).length ≤ maxEmailsPerRun ∧
    (tDue.isActive = true ∧ tDue.status = TrackerStatus.pending ∧
      ∃ d : Day, stageDue 0 1 (getStage tDue.emailSchedule d) = true) := by
  have h := claim5_selector [tDue] 0 1
  exact ⟨h.1, h.2.1 tDue (by decide)⟩

/-- Claim C8 counterexample: the reactivate route succeeds on a tracker
whose status is reviewed, not cancelled, so the operation is not
restricted to cancelled trackers. -/
theorem claim8_cex :
    tReviewedSample.status ≠ TrackerStatus.cancelled ∧
    reactivateRoute (some tReviewedSample) =
      (some (reactivate tReviewedSample), 200, true) ∧
    (reactivate tReviewedSample).status = TrackerStatus.pending ∧
    (reactivate tReviewedSample).isActive = true := by
  exact ⟨by decide, rfl, rfl, rfl⟩

/-- Claim C8 amended: reactivation sets status pending and isActive true on
every tracker it is applied to; the route performs no check of the
previous status. -/
theorem claim8_reactivate :
    ∀ t : Tracker,
      reactivateRoute (some t) = (some (reactivate t), 200, true) ∧
      (reactivate t).status = TrackerStatus.pending ∧
      (reactivate t).isActive = true := by
  intro t
  exact ⟨rfl, rfl, rfl⟩

/-- Sample tracker whose day 3 stage is already marked sent. -/
def tSentStage : Tracker := updStage tDue .d3 (fun s => { s with sent := true })

/-- A rejection message built from a rejected list is never empty. -/
theorem rejectedMsg_ne_empty (x : String) : ("Email rejected: " ++ x) ≠ "" := by
  intro h
  have h2 := congrArg String.length h
  simp [String.length_append] at h2
  exact absurd h2.1 (by decide)

/-- Claim C1: when the credentials are configured and the transport throws,
reports no accepted recipients, or reports the recipient rejected (a
response to a single recipient that rejects it accepts nobody), the stage
record afterwards has sent false and a non empty error string. -/
theorem claim1_failure_marks_unsent
    (env : Env) (tdb : TemplateDb) (files : TemplateFiles) (now : Int)
    (oc : MailOutcome) (t : Tracker) (d : Day)
    (hu : env.gmailUser ≠ none) (hp : env.gmailPass ≠ none)
    (hwf : ∀ a r m, oc = .response (some a) r m → t.customerEmail ∈ r.getD [] → a = [])
    (hfail : (∃ m, oc = .threw m) ∨
             (∃ r m, oc = .response none r m) ∨
             (∃ a r m, oc = .response a r m ∧
               (a = some [] ∨ t.customerEmail ∈ r.getD []))) :
    (getStage (sendFeedbackEmail env tdb files now oc t d).1.emailSchedule d).sent = false ∧
    ∃ e, (getStage (sendFeedbackEmail env tdb files now oc t d).1.emailSchedule d).error = some e ∧
      e ≠ "" := by
  obtain ⟨gu, gp⟩ := env
  cases gu with
  | none => exact absurd rfl hu
  | some u =>
    cases gp with
    | none => exact absurd rfl hp
    | some p =>
      cases oc with
      | threw msg =>
        refine ⟨by simp [sendFeedbackEmail, getStage_updStage_same],
                if msg = "" then "Unknown error" else msg,
                by simp [sendFeedbackEmail, getStage_updStage_same], ?_⟩
        by_cases hm : msg = "" <;> simp [hm]
      | response accepted rejected messageId =>
        cases accepted with
        | none =>
          cases rejected with
          | none =>
            exact ⟨by simp [sendFeedbackEmail, getStage_updStage_same],
                   "Email failed to send",
                   by simp [sendFeedbackEmail, getStage_updStage_same], by decide⟩
          | some r =>
            exact ⟨by simp [sendFeedbackEmail, getStage_updStage_same],
                   "Email rejected: " ++ String.intercalate ", " r,
                   by simp [sendFeedbackEmail, getStage_updStage_same],
                   rejectedMsg_ne_empty _⟩
        | some a =>
          cases a with
          | nil =>
            cases rejected with
            | none =>
              exact ⟨by simp [sendFeedbackEmail, getStage_updStage_same],
                     "Email failed to send",
                     by simp [sendFeedbackEmail, getStage_updStage_same], by decide⟩
            | some r =>
              exact ⟨by simp [sendFeedbackEmail, getStage_updStage_same],
                     "Email rejected: " ++ String.intercalate ", " r,
                     by simp [sendFeedbackEmail, getStage_updStage_same],
                     rejectedMsg_ne_empty _⟩
          | cons x xs =>
            exfalso
            rcases hfail with ⟨m, hm⟩ | ⟨r, m, hm⟩ | ⟨a', r, m, hm, hcase⟩
            · exact MailOutcome.noConfusion hm
            · injection hm with h1 _ _
              exact Option.noConfusion h1
            · injection hm with h1 h2 h3
              subst h1 h2 h3
              rcases hcase with h | h
              · injection h with h
                exact List.noConfusion h
              · exact List.noConfusion (hwf (x :: xs) rejected messageId rfl h)

/-- Witness for claim C1: a thrown transport error on a concrete tracker. -/
theorem claim1_failure_marks_unsent_w :
    (getStage (sendFeedbackEmail ⟨some "u", some "p"⟩ tdbEmpty filesEmpty 0
        (.threw "boom") tDue .d3).1.emailSchedule .d3).sent = false ∧
    ∃ e, (getStage (sendFeedbackEmail ⟨some "u", some "p"⟩ tdbEmpty filesEmpty 0
        (.threw "boom") tDue .d3).1.emailSchedule .d3).error = some e ∧ e ≠ "" :=
  claim1_failure_marks_unsent ⟨some "u", some "p"⟩ tdbEmpty filesEmpty 0
    (.threw "boom") tDue .d3 (by decide) (by decide)
    (by intro a r m h; exact MailOutcome.noConfusion h)
    (.inl ⟨"boom", rfl⟩)

/-- Claim C6 counterexample: with missing credentials the code stores the
configuration error but does not write the sent flag, so a stage that was
already marked sent keeps sent true, against the claimed sent false. -/
theorem claim6_cex :
    (getStage (sendFeedbackEmail ⟨none, none⟩ tdbEmpty filesEmpty 0 (.threw "x")
        tSentStage .d3).1.emailSchedule .d3).sent = true := by
  decide

/-- Claim C6 amended: with a missing credential the dispatch fails
immediately, the mail transport is not invoked, the stage record receives
a non empty configuration error message and is persisted, and its sent
flag is left unchanged rather than explicitly set to false. -/
theorem claim6_config_error
    (env : Env) (tdb : TemplateDb) (files : TemplateFiles) (now : Int)
    (oc : MailOutcome) (t : Tracker) (d : Day)
    (hcfg : env.gmailUser = none ∨ env.gmailPass = none) :
    (sendFeedbackEmail env tdb files now oc t d).2.2 = false ∧
    (sendFeedbackEmail env tdb files now oc t d).2.1.success = false ∧
    (getStage (sendFeedbackEmail env tdb files now oc t d).1.emailSchedule d).sent
      = (getStage t.emailSchedule d).sent ∧
    ∃ e, (getStage (sendFeedbackEmail env tdb files now oc t d).1.emailSchedule d).error = some e ∧
      e ≠ "" := by
  obtain ⟨gu, gp⟩ := env
  cases gu with
  | none =>
    exact ⟨rfl, rfl, by simp [sendFeedbackEmail, getStage_updStage_same],
           "GMAIL_USER not configured. Cannot send email.",
           by simp [sendFeedbackEmail, getStage_updStage_same], by decide⟩
  | some u =>
    cases gp with
    | none =>
      exact ⟨rfl, rfl, by simp [sendFeedbackEmail, getStage_updStage_same],
             "GMAIL_PASS not configured. Cannot send email.",
             by simp [sendFeedbackEmail, getStage_updStage_same], by decide⟩
    | some p =>
      rcases hcfg with h | h <;> exact Option.noConfusion h

/-- Witness for claim C6 amended at a concrete tracker without credentials. -/
theorem claim6_config_error_w :
    (sendFeedbackEmail ⟨none, none⟩ tdbEmpty filesEmpty 0 (.threw "x") tDue .d3).2.2 = false ∧
    (sendFeedbackEmail ⟨none, none⟩ tdbEmpty filesEmpty 0 (.threw "x") tDue .d3).2.1.success = false ∧
    (getStage (sendFeedbackEmail ⟨none, none⟩ tdbEmpty filesEmpty 0 (.threw "x")
        tDue .d3).1.emailSchedule .d3).sent = (getStage tDue.emailSchedule .d3).sent ∧
    ∃ e, (getStage (sendFeedbackEmail ⟨none, none⟩ tdbEmpty filesEmpty 0 (.threw "x")
        tDue .d3).1.emailSchedule .d3).error = some e ∧ e ≠ "" :=
  claim6_config_error ⟨none, none⟩ tdbEmpty filesEmpty 0 (.threw "x") tDue .d3 (.inl rfl)

/-- Claim C7 counterexample: with no active override the subject resolved
for stage 7 with customer name Ana does not contain Ana at all, because
the packaged default subject of day 7 is a fixed string without a name
placeholder. -/
theorem claim7_cex :
    strContainsSub (getEmailSubject tdbEmpty 7 "Ana") "Ana" = false := by
  decide

set_option maxRecDepth 40000 in
/-- Claim C7 amended: with no active override for stage 7 the resolver
yields the packaged default subject of day 7, a fixed string that does not
mention the customer name, and a body whose review link defaults to the
generic Amazon review URL when none is supplied. -/
theorem claim7_template_fallback :
    getEmailSubject tdbEmpty 7 "Ana" = "Quick favor - Share your Study Key experience? 📝" ∧
    (∀ name, getEmailSubject tdbEmpty 7 name = getEmailSubject tdbEmpty 7 "Ana") ∧
    loadEmailTemplate tdbEmpty filesEmpty 7 "Ana" "" "" "" =
      getDefaultEmailContent 7 "Ana" "" "" "" ∧
    strContainsSub (loadEmailTemplate tdbEmpty filesEmpty 7 "Ana" "" "" "")
      "https://www.amazon.com/review/create-review" = true := by
  exact ⟨rfl, fun name => rfl, rfl, by decide⟩

/-- Every day key is a member of the evaluation order list. -/
theorem mem_daysToCheck (d : Day) : d ∈ daysToCheck := by
  cases d <;> simp [daysToCheck]

/-- Specification of firstDueDay: a found day is due, and every day of
strictly higher priority is not due. -/
theorem firstDueDay_spec (today tom : Int) (es : EmailSchedule) (d : Day)
    (h : firstDueDay today tom es = some d) :
    stageDue today tom (getStage es d) = true ∧
    ∀ d', dayIdx d' < dayIdx d → stageDue today tom (getStage es d') = false := by
  constructor
  · have h2 : List.find? (fun x => stageDue today tom (getStage es x)) daysToCheck = some d := h
    simpa using List.find?_some h2
  intro d' hlt
  unfold firstDueDay daysToCheck at h
  cases h30 : stageDue today tom (getStage es .d30) <;>
  cases h14 : stageDue today tom (getStage es .d14) <;>
  cases h7 : stageDue today tom (getStage es .d7) <;>
  cases h3 : stageDue today tom (getStage es .d3) <;>
  simp only [List.find?, h30, h14, h7, h3] at h <;>
  first
  | exact Option.noConfusion h
  | (injection h with h
     subst h
     cases d' <;> simp [dayIdx] at hlt ⊢ <;> assumption)

/-- When firstDueDay finds nothing, no day is due. -/
theorem firstDueDay_none (today tom : Int) (es : EmailSchedule)
    (h : firstDueDay today tom es = none) (d : Day) :
    stageDue today tom (getStage es d) = false := by
  have := List.find?_eq_none.mp h d (mem_daysToCheck d)
  exact Bool.eq_false_iff.mpr (fun hc => this hc)

/-- sendFeedbackEmail touches only the stage of the attempted day. -/
theorem sendFeedbackEmail_other_stage (env : Env) (tdb : TemplateDb) (files : TemplateFiles)
    (now : Int) (oc : MailOutcome) (t : Tracker) (d d' : Day) (h : d' ≠ d) :
    getStage (sendFeedbackEmail env tdb files now oc t d).1.emailSchedule d'
      = getStage t.emailSchedule d' := by
  obtain ⟨gu, gp⟩ := env
  cases gu with
  | none => exact getStage_updStage_ne t d d' _ h
  | some u =>
    cases gp with
    | none => exact getStage_updStage_ne t d d' _ h
    | some p =>
      cases oc with
      | threw m => exact getStage_updStage_ne t d d' _ h
      | response a r mid =>
        cases a with
        | none => exact getStage_updStage_ne t d d' _ h
        | some l =>
          cases l with
          | nil => exact getStage_updStage_ne t d d' _ h
          | cons x xs => exact getStage_updStage_ne t d d' _ h

/-- The day 30 completion check never touches the schedule. -/
theorem promoteIfDone_emailSchedule (t : Tracker) :
    (promoteIfDone t).emailSchedule = t.emailSchedule := by
  unfold promoteIfDone markAsUnreviewed
  split <;> rfl

/-- Processing a tracker with no due stage only runs the completion check. -/
theorem processTrackerFull_eq_none (env : Env) (tdb : TemplateDb) (files : TemplateFiles)
    (now : Int) (oc : Day → MailOutcome) (today tom : Int) (t : Tracker)
    (h : firstDueDay today tom t.emailSchedule = none) :
    processTrackerFull env tdb files now oc today tom t = (promoteIfDone t, none) := by
  unfold processTrackerFull processTrackerSend
  rw [h]

/-- Processing a tracker whose first due stage is d sends for d and then
runs the completion check. -/
theorem processTrackerFull_eq_some (env : Env) (tdb : TemplateDb) (files : TemplateFiles)
    (now : Int) (oc : Day → MailOutcome) (today tom : Int) (t : Tracker) (d : Day)
    (h : firstDueDay today tom t.emailSchedule = some d) :
    processTrackerFull env tdb files now oc today tom t =
      (promoteIfDone (sendFeedbackEmail env tdb files now (oc d) t d).1,
       some (d, (sendFeedbackEmail env tdb files now (oc d) t d).2.1)) := by
  unfold processTrackerFull processTrackerSend
  rw [h]

/-- Claim C2: inside a run every tracker gets at most one attempt, the
attempted stage is due and of maximal priority among due stages in the
order 30, 14, 7, 3, the other stage records are untouched, no attempt
happens when no stage is due, and when both day 14 and day 30 are due the
attempt is for day 30 while the day 14 record is unchanged. -/
theorem claim2_one_per_tracker
    (env : Env) (tdb : TemplateDb) (files : TemplateFiles) (now : Int)
    (oc : Tracker → Day → MailOutcome) (today tomorrow : Int)
    (trackers : List Tracker) (i : Nat) (t : Tracker)
    (out : Tracker × Option (Day × SendResult))
    (ht : trackers[i]? = some t)
    (hout : (runBatch env tdb files now oc today tomorrow trackers)[i]? = some out) :
    (∀ d r, out.2 = some (d, r) →
       stageDue today tomorrow (getStage t.emailSchedule d) = true ∧
       (∀ d', dayIdx d' < dayIdx d →
          stageDue today tomorrow (getStage t.emailSchedule d') = false) ∧
       (∀ d', d' ≠ d → getStage out.1.emailSchedule d' = getStage t.emailSchedule d')) ∧
    (out.2 = none → ∀ d, stageDue today tomorrow (getStage t.emailSchedule d) = false) ∧
    (stageDue today tomorrow t.emailSchedule.day14 = true →
     stageDue today tomorrow t.emailSchedule.day30 = true →
       (∃ r, out.2 = some (.d30, r)) ∧
       getStage out.1.emailSchedule .d14 = t.emailSchedule.day14) := by
  rw [runBatch, List.getElem?_map, ht] at hout
  injection hout with hout
  subst hout
  beta_reduce
  cases hfd : firstDueDay today tomorrow t.emailSchedule with
  | none =>
    rw [processTrackerFull_eq_none env tdb files now (oc t) today tomorrow t hfd]
    refine ⟨?_, ?_, ?_⟩
    · intro d r h
      exact Option.noConfusion h
    · intro _ d
      exact firstDueDay_none today tomorrow t.emailSchedule hfd d
    · intro _ h30
      have hc := firstDueDay_none today tomorrow t.emailSchedule hfd .d30
      rw [show getStage t.emailSchedule .d30 = t.emailSchedule.day30 from rfl] at hc
      rw [h30] at hc
      exact Bool.noConfusion hc
  | some d0 =>
    have hspec := firstDueDay_spec today tomorrow t.emailSchedule d0 hfd
    rw [processTrackerFull_eq_some env tdb files now (oc t) today tomorrow t d0 hfd]
    refine ⟨?_, ?_, ?_⟩
    · intro d r h
      injection h with h
      have hd : d0 = d := congrArg Prod.fst h
      subst hd
      refine ⟨hspec.1, hspec.2, ?_⟩
      intro d' hne
      calc getStage (promoteIfDone (sendFeedbackEmail env tdb files now (oc t d0) t d0).1).emailSchedule d'
          = getStage (sendFeedbackEmail env tdb files now (oc t d0) t d0).1.emailSchedule d' := by
            rw [promoteIfDone_emailSchedule]
        _ = getStage t.emailSchedule d' :=
            sendFeedbackEmail_other_stage env tdb files now (oc t d0) t d0 d' hne
    · intro h
      exact Option.noConfusion h
    · intro h14 h30
      have hd0 : d0 = Day.d30 := by
        unfold firstDueDay daysToCheck at hfd
        rw [List.find?] at hfd
        rw [show stageDue today tomorrow (getStage t.emailSchedule .d30)
              = stageDue today tomorrow t.emailSchedule.day30 from rfl, h30] at hfd
        injection hfd with hfd
        exact hfd.symm
      subst hd0
      refine ⟨⟨(sendFeedbackEmail env tdb files now (oc t .d30) t .d30).2.1, rfl⟩, ?_⟩
      calc getStage (promoteIfDone (sendFeedbackEmail env tdb files now (oc t .d30) t .d30).1).emailSchedule .d14
          = getStage (sendFeedbackEmail env tdb files now (oc t .d30) t .d30).1.emailSchedule .d14 := by
            rw [promoteIfDone_emailSchedule]
        _ = getStage t.emailSchedule .d14 :=
            sendFeedbackEmail_other_stage env tdb files now (oc t .d30) t .d30 .d14 (by decide)
        _ = t.emailSchedule.day14 := rfl

/-- Sample environment with both credentials configured. -/
def env0 : Env := { gmailUser := some "u", gmailPass := some "p" }

/-- Sample transport behaviour that always throws. -/
def oc0 : Tracker → Day → MailOutcome := fun _ _ => .threw "x"

/-- Sample tracker whose day 14 and day 30 stages are both due on day zero. -/
def t1430 : Tracker :=
  updStage (updStage (mkTracker "o4" "zoe@example.com" "Zoe" none none none none none (-100))
    .d14 (fun s => { s with scheduledDate := 0 })) .d30 (fun s => { s with scheduledDate := 0 })

/-- Sample tracker whose day 30 stage is already sent while it is still
pending and no stage is due. -/
def t30 : Tracker :=
  updStage (mkTracker "o3" "eve@example.com" "Eve" none none none none none 100)
    .d30 (fun s => { s with sent := true })

/-- Witness for claim C2: with day 14 and day 30 both due, the attempt is
for day 30 and the day 14 record is unchanged. -/
theorem claim2_one_per_tracker_w :
    (∃ r, (processTrackerFull env0 tdbEmpty filesEmpty 0 (oc0 t1430) 0 1 t1430).2
        = some (.d30, r)) ∧
    getStage (processTrackerFull env0 tdbEmpty filesEmpty 0 (oc0 t1430) 0 1 t1430).1.emailSchedule .d14
      = t1430.emailSchedule.day14 := by
  have h := claim2_one_per_tracker env0 tdbEmpty filesEmpty 0 oc0 0 1 [t1430] 0 t1430
    (processTrackerFull env0 tdbEmpty filesEmpty 0 (oc0 t1430) 0 1 t1430) rfl rfl
  exact h.2.2 (by decide) (by decide)

/-- Claim C3: a tracker whose day 30 stage is sent and whose status is
still pending after its send phase ends the run with status unreviewed and
isActive false. -/
theorem claim3_terminal_promotion
    (env : Env) (tdb : TemplateDb) (files : TemplateFiles) (now : Int)
    (oc : Tracker → Day → MailOutcome) (today tomorrow : Int)
    (trackers : List Tracker) (i : Nat) (t : Tracker)
    (out : Tracker × Option (Day × SendResult))
    (ht : trackers[i]? = some t)
    (hout : (runBatch env tdb files now oc today tomorrow trackers)[i]? = some out)
    (h30 : (processTrackerSend env tdb files now (oc t) today tomorrow t).1.emailSchedule.day30.sent
        = true)
    (hpend : (processTrackerSend env tdb files now (oc t) today tomorrow t).1.status
        = TrackerStatus.pending) :
    out.1.status = TrackerStatus.unreviewed ∧ out.1.isActive = false := by
  rw [runBatch, List.getElem?_map, ht] at hout
  injection hout with hout
  subst hout
  beta_reduce
  show (promoteIfDone (processTrackerSend env tdb files now (oc t) today tomorrow t).1).status
      = TrackerStatus.unreviewed ∧
    (promoteIfDone (processTrackerSend env tdb files now (oc t) today tomorrow t).1).isActive = false
  unfold promoteIfDone
  rw [if_pos ⟨h30, hpend⟩]
  exact ⟨rfl, rfl⟩

/-- Witness for claim C3: a pending tracker whose day 30 stage is already
sent is promoted to unreviewed and inactive by the run. -/
theorem claim3_terminal_promotion_w :
    (markAsUnreviewed t30).status = TrackerStatus.unreviewed ∧
    (markAsUnreviewed t30).isActive = false :=
  claim3_terminal_promotion env0 tdbEmpty filesEmpty 0 oc0 0 1 [t30] 0 t30
    (markAsUnreviewed t30, none) rfl rfl rfl rfl

/-- One tally step preserves the counter invariants: processed equals sent
plus failed, skipped stays zero, and failed equals the error list length. -/
theorem tallyStep_inv (acc : RunResults) (item : Tracker × Option (Day × SendResult))
    (h1 : acc.processed = acc.sent + acc.failed) (h2 : acc.skipped = 0)
    (h3 : acc.failed = acc.errors.length) :
    (tallyStep acc item).processed = (tallyStep acc item).sent + (tallyStep acc item).failed ∧
    (tallyStep acc item).skipped = 0 ∧
    (tallyStep acc item).failed = (tallyStep acc item).errors.length := by
  unfold tallyStep
  rcases item with ⟨tr, o⟩
  cases o with
  | none => exact ⟨h1, h2, h3⟩
  | some p =>
    rcases p with ⟨d, r⟩
    cases hr : r.success <;> simp [hr, h1, h2, h3, List.length_append] <;> omega

/-- The fold of tally steps preserves the counter invariants. -/
theorem tallyFold_inv (out : List (Tracker × Option (Day × SendResult))) :
    ∀ acc : RunResults,
      acc.processed = acc.sent + acc.failed → acc.skipped = 0 →
      acc.failed = acc.errors.length →
      (out.foldl tallyStep acc).processed
          = (out.foldl tallyStep acc).sent + (out.foldl tallyStep acc).failed ∧
      (out.foldl tallyStep acc).skipped = 0 ∧
      (out.foldl tallyStep acc).failed = (out.foldl tallyStep acc).errors.length := by
  induction out with
  | nil => intro acc h1 h2 h3; exact ⟨h1, h2, h3⟩
  | cons x xs ih =>
    intro acc h1 h2 h3
    simp only [List.foldl_cons]
    have hs := tallyStep_inv acc x h1 h2 h3
    exact ih (tallyStep acc x) hs.1 hs.2.1 hs.2.2

/-- Claim C9: a failing due set query propagates out of processPendingEmails
unchanged, the cron trigger then answers 500 with the error and a timestamp
and no summary, while a successful query always produces a summary: the
run never fails because of individual send failures, which appear only as
per item entries of the error list. -/
theorem claim9_store_failure
    (env : Env) (tdb : TemplateDb) (files : TemplateFiles) (now : Int)
    (oc : Tracker → Day → MailOutcome) (today tomorrow : Int) (ts : Int) :
    (∀ e, processPendingEmails env tdb files now oc today tomorrow (.error e) = .error e ∧
      cronHandler true (.error e) ts =
        { status := 500, success := false, message := none, results := none,
          error := some e, timestamp := some ts }) ∧
    (∀ trackers, ∃ out res,
      processPendingEmails env tdb files now oc today tomorrow (.ok trackers) = .ok (out, res) ∧
      res.failed = res.errors.length ∧
      cronHandler true (.ok res) ts =
        { status := 200, success := true, message := some "Email processing completed",
          results := some res, error := none, timestamp := some ts }) := by
  constructor
  · intro e
    exact ⟨rfl, rfl⟩
  · intro trackers
    refine ⟨runBatch env tdb files now oc today tomorrow trackers,
            aggregate (runBatch env tdb files now oc today tomorrow trackers), rfl, ?_, rfl⟩
    exact (tallyFold_inv _ initResults rfl rfl rfl).2.2

/-- Claim C10: every successful run returns a summary whose skipped counter
is zero and whose processed counter equals sent plus failed. -/
theorem claim10_skipped_zero
    (env : Env) (tdb : TemplateDb) (files : TemplateFiles) (now : Int)
    (oc : Tracker → Day → MailOutcome) (today tomorrow : Int)
    (trackers : List Tracker) (out : List (Tracker × Option (Day × SendResult)))
    (res : RunResults)
    (h : processPendingEmails env tdb files now oc today tomorrow (.ok trackers)
        = .ok (out, res)) :
    res.skipped = 0 ∧ res.processed = res.sent + res.failed := by
  unfold processPendingEmails at h
  injection h with h
  have hres : res = aggregate (runBatch env tdb files now oc today tomorrow trackers) :=
    (congrArg Prod.snd h).symm
  subst hres
  have hinv := tallyFold_inv (runBatch env tdb files now oc today tomorrow trackers)
    initResults rfl rfl rfl
  exact ⟨hinv.2.1, hinv.1⟩

/-- Witness for claim C10 on a concrete run with one failing send. -/
theorem claim10_skipped_zero_w :
    (aggregate (runBatch env0 tdbEmpty filesEmpty 0 oc0 0 1 [t1430])).skipped = 0 ∧
    (aggregate (runBatch env0 tdbEmpty filesEmpty 0 oc0 0 1 [t1430])).processed
      = (aggregate (runBatch env0 tdbEmpty filesEmpty 0 oc0 0 1 [t1430])).sent
        + (aggregate (runBatch env0 tdbEmpty filesEmpty 0 oc0 0 1 [t1430])).failed :=
  claim10_skipped_zero env0 tdbEmpty filesEmpty 0 oc0 0 1 [t1430]
    (runBatch env0 tdbEmpty filesEmpty 0 oc0 0 1 [t1430])
    (aggregate (runBatch env0 tdbEmpty filesEmpty 0 oc0 0 1 [t1430])) rfl
